import Mathlib

/-!
Verification development for the `RemotePython` session manager
(`src/main.py`): a controller that injects a Python DLL into a running
target process, drives remote execution of code strings through the
runtime exports, and tears the session down again.

The public methods of `RemotePython` are embedded as pure Lean functions.
The Win32 / remote-process helper methods referenced by `main.py` but not
defined in the provided source (`_inject_dll`, `_execute_remote`,
`_unload_dll`, `_close_process`, `_close_cache`, `_initialize_cache`,
`_get_default_python_dll`, `is_python_injected`, `is_python_initialized`,
`_get_proc_address`) are modelled as primitives of an environment `Env`
whose outcomes are supplied externally, following the behaviour the spec
assigns to them.  Each embedded operation returns both its Python-level
result (`Except Err _`, the error being the raised exception) and the
trace of remote-process effects it attempted, in order.
-/

/-- Exception universe.  The first five kinds are the ones the code in
`src/main.py` can actually raise (`RemotePythonError`, `InjectionError`
and `InitializationError` are defined there; `TypeError` is the Python
builtin raised in `run`; `OSErrorKind` stands for any non-RemotePython
exception escaping an unwrapped helper call).  The remaining kinds come
from the taxonomy of the specification and are included so that
statements about them can be expressed; the source never constructs
them. -/
inductive Err where
  | RemotePythonError (msg : String) : Err
  | InjectionError (msg : String) : Err
  | InitializationError (msg : String) : Err
  | TypeError (msg : String) : Err
  | OSErrorKind (msg : String) : Err
  | RemoteCallError (msg : String) : Err
  | ProcessOpenError (msg : String) : Err
  | InvalidStateError (msg : String) : Err
  | ExecutionError (msg : String) : Err
  | SymbolNotFoundError (msg : String) : Err
  deriving Repr, DecidableEq

/-- The dynamic kind of an exception, used to state which error class an
operation fails with (Python `isinstance` against the exact class
raised). -/
inductive ErrKind where
  | remotePython
  | injection
  | initialization
  | typeErr
  | osErr
  | remoteCall
  | processOpen
  | invalidState
  | execution
  | symbolNotFound
  deriving Repr, DecidableEq

def Err.kind : Err → ErrKind
  | .RemotePythonError _ => .remotePython
  | .InjectionError _ => .injection
  | .InitializationError _ => .initialization
  | .TypeError _ => .typeErr
  | .OSErrorKind _ => .osErr
  | .RemoteCallError _ => .remoteCall
  | .ProcessOpenError _ => .processOpen
  | .InvalidStateError _ => .invalidState
  | .ExecutionError _ => .execution
  | .SymbolNotFoundError _ => .symbolNotFound

/-- The kind of the exception a finished operation failed with, if it
failed. -/
def kindOf {α : Type} (r : Except Err α) : Option ErrKind :=
  match r with
  | .error e => some e.kind
  | .ok _ => none

/-- Observable remote-process effects, recorded in order of attempt.
`ExecuteRemote p a` is an attempt to run the export named `p` in the
target with optional string argument `a`; `InjectDll` is an attempt to
load the DLL at the given path into the target. -/
inductive Event where
  | OpenProcess (pid : Nat) : Event
  | QueryExecutablePath : Event
  | OpenCacheStore : Event
  | InjectDll (path : String) : Event
  | CheckModules : Event
  | ResolveSymbol (name : String) : Event
  | ExecuteRemote (proc : String) (arg : Option String) : Event
  | UnloadRemoteDll : Event
  | CloseProcessHandle : Event
  | CloseCacheStore : Event
  deriving Repr, DecidableEq

/-- An event that touches the target process address space (injection or
remote execution).  Used to state that an operation performed zero
injection / remote-execution attempts. -/
def isRemoteAttempt : Event → Bool
  | .InjectDll _ => true
  | .ExecuteRemote _ _ => true
  | _ => false

/-- Number of injection / remote-execution attempts in a trace. -/
def remoteAttempts (t : List Event) : Nat :=
  (t.filter isRemoteAttempt).length

/-- `ProcessInfo` dataclass of `src/main.py`: pid, OS handle, resolved
executable path of the target. -/
structure ProcessInfo where
  pid : Nat
  handle : Nat
  executable : String
  deriving Repr, DecidableEq

/-- Outcomes of the externally-backed primitives the session drives.
Each field gives the result the corresponding helper produces when
called; `Except String` carries the message of the underlying exception
on failure.  Bodies of these helpers are not part of `src/main.py`; their
interfaces follow the spec (process open, module scan, runtime init
check, export resolution, remote call, unload, handle close, cache
open and close). -/
structure Env where
  openProcess : Nat → Except String Nat
  getModuleFileNameEx : Nat → Except String String
  getDefaultPythonDll : Except String String
  initCache : Option String → Except String Unit
  injectDll : String → Except String Nat
  pythonInjected : Bool
  initPython : Except String Unit
  pythonInitialized : Bool
  getProcAddress : String → Except String Nat
  executeRemote : String → Option String → Except String Int
  unloadDll : Except String Unit
  closeProcess : Except String Unit
  closeCache : Except String Unit

/-- Attribute state of a `RemotePython` instance: `_process`, `_dll_path`,
`_proc_cache` (presence of an open cache handle), `_remote_dll`
(present exactly when the attribute has been set, mirroring
`hasattr(self, _remote_dll)` in `cleanup`), `_debug`. -/
structure RemotePython where
  process : ProcessInfo
  dll_path : String
  proc_cache : Bool
  remote_dll : Option Nat
  debug : Bool
  deriving Repr, DecidableEq

/-- A Python value passed to `run`.  The code only distinguishes strings
from everything else (`isinstance(code, str)`). -/
inductive PyObject where
  | str (s : String) : PyObject
  | int (n : Int) : PyObject
  | noneObj : PyObject
  deriving Repr, DecidableEq

/-- Embeds `RemotePython._initialize_process` (src/main.py lines 61-72):
open the process, resolve its executable path, wrap any failure in a
`RemotePythonError` with the `Failed to initialize process` message. -/
def initProcess (env : Env) (pid : Nat) :
    Except Err ProcessInfo × List Event :=
  match env.openProcess pid with
  | .error e =>
      (.error (.RemotePythonError ("Failed to initialize process: " ++ e)),
       [.OpenProcess pid])
  | .ok h =>
      match env.getModuleFileNameEx h with
      | .error e =>
          (.error (.RemotePythonError ("Failed to initialize process: " ++ e)),
           [.OpenProcess pid, .QueryExecutablePath])
      | .ok exe =>
          (.ok { pid := pid, handle := h, executable := exe },
           [.OpenProcess pid, .QueryExecutablePath])

/-- Embeds `RemotePython.cleanup` (src/main.py lines 124-135).  When the
`_remote_dll` attribute is set, remote finalisation and DLL unload are
attempted inside a `try` whose `except` swallows every exception (the
attribute is never deleted).  `_close_process` and `_close_cache` then
run outside any `try`: if either of those helpers raises, the exception
propagates out of `cleanup`. -/
def RemotePython.cleanup (env : Env) (s : RemotePython) :
    Except Err RemotePython × List Event :=
  let ev1 : List Event :=
    match s.remote_dll with
    | none => []
    | some _ =>
        match env.executeRemote "Py_Finalize" none with
        | .error _ => [.ExecuteRemote "Py_Finalize" none]
        | .ok _ =>
            match env.unloadDll with
            | .error _ => [.ExecuteRemote "Py_Finalize" none, .UnloadRemoteDll]
            | .ok _ => [.ExecuteRemote "Py_Finalize" none, .UnloadRemoteDll]
  match env.closeProcess with
  | .error e => (.error (.OSErrorKind e), ev1 ++ [.CloseProcessHandle])
  | .ok _ =>
      match env.closeCache with
      | .error e =>
          (.error (.OSErrorKind e), ev1 ++ [.CloseProcessHandle, .CloseCacheStore])
      | .ok _ =>
          (.ok s, ev1 ++ [.CloseProcessHandle, .CloseCacheStore])

/-- Two successive `cleanup` calls on the same instance, threading the
instance returned by the first call into the second; traces concatenate. -/
def cleanupTwice (env : Env) (s : RemotePython) :
    Except Err RemotePython × List Event :=
  match RemotePython.cleanup env s with
  | (.error e, t1) => (.error e, t1)
  | (.ok s1, t1) =>
      match RemotePython.cleanup env s1 with
      | (r2, t2) => (r2, t1 ++ t2)

/-- The `except` handler of `_inject_and_initialize` (src/main.py lines
89-91): call `self.cleanup()`, then raise
`RemotePythonError("Injection/initialization failed: " + message)`.
If `cleanup` itself raises, that exception propagates instead and the
`raise` is never reached. -/
def exceptHandler (env : Env) (s : RemotePython) (msg : String) :
    Except Err (RemotePython × Bool) × List Event :=
  match RemotePython.cleanup env s with
  | (.ok _, ev) =>
      (.error (.RemotePythonError ("Injection/initialization failed: " ++ msg)), ev)
  | (.error e2, ev) => (.error e2, ev)

/-- Embeds `RemotePython._inject_and_initialize` (src/main.py lines
74-91).  Steps, in order: inject the DLL (setting the `_remote_dll`
attribute on success), cross-check the module list, initialise the
remote interpreter, check initialisation, pre-resolve `Py_Finalize`.
An `InjectionError` / `InitializationError` raised by the two checks is
immediately caught by the surrounding `except` together with any helper
failure; the handler runs `cleanup` on the attribute state reached so
far and re-raises the base `RemotePythonError`.  On success the method
returns `True`. -/
def injectAndInit (env : Env) (s : RemotePython) :
    Except Err (RemotePython × Bool) × List Event :=
  match env.injectDll s.dll_path with
  | .error e =>
      match exceptHandler env s e with
      | (r, ev) => (r, .InjectDll s.dll_path :: ev)
  | .ok base =>
      let s1 := { s with remote_dll := some base }
      if env.pythonInjected = false then
        match exceptHandler env s1 "Python DLL injection failed" with
        | (r, ev) => (r, [.InjectDll s.dll_path, .CheckModules] ++ ev)
      else
        match env.initPython with
        | .error e =>
            match exceptHandler env s1 e with
            | (r, ev) =>
                (r, [.InjectDll s.dll_path, .CheckModules,
                     .ExecuteRemote "Py_Initialize" none] ++ ev)
        | .ok _ =>
            if env.pythonInitialized = false then
              match exceptHandler env s1 "Python initialization failed" with
              | (r, ev) =>
                  (r, [.InjectDll s.dll_path, .CheckModules,
                       .ExecuteRemote "Py_Initialize" none] ++ ev)
            else
              match env.getProcAddress "Py_Finalize" with
              | .error e =>
                  match exceptHandler env s1 e with
                  | (r, ev) =>
                      (r, [.InjectDll s.dll_path, .CheckModules,
                           .ExecuteRemote "Py_Initialize" none,
                           .ResolveSymbol "Py_Finalize"] ++ ev)
              | .ok _ =>
                  (.ok (s1, true),
                   [.InjectDll s.dll_path, .CheckModules,
                    .ExecuteRemote "Py_Initialize" none,
                    .ResolveSymbol "Py_Finalize"])

/-- Python truthiness of `python_dll_path or self._get_default_python_dll()`
(src/main.py line 55): the default lookup runs exactly when the argument
is `None` or the empty string. -/
def pyOr (p : Option String) (dflt : Except String String) :
    Except String String :=
  match p with
  | some s => if s = "" then dflt else .ok s
  | none => dflt

/-- Embeds `RemotePython.__init__` (src/main.py lines 48-59): open the
process, pick the DLL path, open the address cache, then drive
`_inject_and_initialize`.  A failure in `_initialize_process`,
`_get_default_python_dll` or `_initialize_cache` propagates as-is with
no cleanup.  `_inject_and_initialize` either raises (its handler having
run `cleanup`) or returns `True`, so the
`raise InitializationError(...)` guarding a `False` return (line 59) is
dead code; it is embedded faithfully nonetheless. -/
def RemotePython.construct (env : Env) (pid : Nat)
    (python_dll_path : Option String) (shelf_name : Option String) :
    Except Err RemotePython × List Event :=
  match initProcess env pid with
  | (.error e, ev) => (.error e, ev)
  | (.ok pinfo, ev1) =>
      match pyOr python_dll_path env.getDefaultPythonDll with
      | .error e => (.error (.OSErrorKind e), ev1)
      | .ok dllPath =>
          match env.initCache shelf_name with
          | .error e => (.error (.OSErrorKind e), ev1 ++ [.OpenCacheStore])
          | .ok _ =>
              match injectAndInit env
                  { process := pinfo, dll_path := dllPath, proc_cache := true,
                    remote_dll := none, debug := false } with
              | (.error e, ev2) => (.error e, ev1 ++ [.OpenCacheStore] ++ ev2)
              | (.ok (s1, ok), ev2) =>
                  if ok = false then
                    (.error (.InitializationError
                        "Failed to initialize remote Python environment"),
                     ev1 ++ [.OpenCacheStore] ++ ev2)
                  else
                    (.ok s1, ev1 ++ [.OpenCacheStore] ++ ev2)

/-- Embeds `RemotePython.run` (src/main.py lines 93-112): a non-string
argument raises the builtin `TypeError` before anything else happens;
otherwise `PyRun_SimpleString` is executed remotely with the code string
and any failure is wrapped in `RemotePythonError` with the
`Code execution failed` message.  The instance is returned unchanged:
`run` assigns no attribute. -/
def RemotePython.run (env : Env) (s : RemotePython) (code : PyObject) :
    Except Err Int × RemotePython × List Event :=
  match code with
  | .str c =>
      match env.executeRemote "PyRun_SimpleString" (some c) with
      | .ok rc =>
          (.ok rc, s, [.ExecuteRemote "PyRun_SimpleString" (some c)])
      | .error e =>
          (.error (.RemotePythonError ("Code execution failed: " ++ e)), s,
           [.ExecuteRemote "PyRun_SimpleString" (some c)])
  | _ => (.error (.TypeError "Code must be a string"), s, [])

/-- Splits a character list on the backslash separator. -/
def splitOnBackslash : List Char → List (List Char)
  | [] => [[]]
  | c :: rest =>
      let r := splitOnBackslash rest
      if c = '\\' then [] :: r
      else
        match r with
        | [] => [[c]]
        | g :: gs => (c :: g) :: gs

/-- Models `str(pathlib.Path(p))` on Windows (the platform the module is
bound to via its win32 imports) for drive-letter and relative paths:
forward slashes become backslashes, a leading `X:` is split off as the
drive, repeated separators, trailing separators and `.` components are
dropped, and the empty path renders as `.`.  UNC `\\host\share` prefixes
are not modelled. -/
def windowsPathStr (p : String) : String :=
  let cs := p.toList.map (fun c => if c = '/' then '\\' else c)
  let driveRest : List Char × List Char :=
    match cs with
    | d :: c2 :: r => if d.isAlpha && c2 == ':' then ([d, c2], r) else ([], cs)
    | _ => ([], cs)
  let rooted : Bool :=
    match driveRest.2 with
    | c :: _ => c == '\\'
    | [] => false
  let comps :=
    (splitOnBackslash driveRest.2).filter (fun g => g ≠ [] && g ≠ ['.'])
  let body := String.intercalate "\\" (comps.map (fun g => String.mk g))
  let driveS := String.mk driveRest.1
  if driveS = "" && rooted = false && comps = [] then "."
  else driveS ++ (if rooted then "\\" else "") ++ body

/-- Embeds `RemotePython.set_python_path` (src/main.py lines 114-122):
each path is converted through `str(Path(p))`, the results are joined
with a literal `;`, and the joined string is forwarded to the
`PySys_SetPath` export.  The call is not wrapped in a `try`, so a
failure of the underlying remote call propagates unwrapped. -/
def RemotePython.set_python_path (env : Env) (_s : RemotePython)
    (paths : List String) : Except Err Unit × List Event :=
  let path_str := String.intercalate ";" (paths.map windowsPathStr)
  match env.executeRemote "PySys_SetPath" (some path_str) with
  | .ok _ => (.ok (), [.ExecuteRemote "PySys_SetPath" (some path_str)])
  | .error e =>
      (.error (.RemoteCallError e), [.ExecuteRemote "PySys_SetPath" (some path_str)])

/-- Embeds `RemotePython.__call__` (src/main.py lines 143-145): the body
is exactly `return self.run(code)`. -/
def RemotePython.callSession (env : Env) (s : RemotePython) (code : PyObject) :
    Except Err Int × RemotePython × List Event :=
  RemotePython.run env s code

/-- A module loaded in the target: base address and the library path it
was loaded from. -/
structure RemoteModule where
  base : Nat
  libraryPath : String
  deriving Repr, DecidableEq

/-- Resolver state: the in-process offset cache keyed by
(library path, symbol name), and a counter of export-table parses. -/
structure ResolverState where
  cache : List ((String × String) × Nat)
  parseCount : Nat
  deriving Repr, DecidableEq

/-- Association lookup in the offset cache. -/
def lookupCache (c : List ((String × String) × Nat)) (k : String × String) :
    Option Nat :=
  match c with
  | [] => none
  | (k2, v) :: rest => if k2 = k then some v else lookupCache rest k

/-- Modelled from the spec: `RemotePython._get_proc_address`, whose body
is not in `src/main.py`, following the SymbolResolver+Cache design.
Look up (library path, symbol name); on a hit return
`module base + cached offset` without touching the export table; on a
miss parse the export table of the library (counted by `parseCount`),
fail with `SymbolNotFoundError` when the symbol is absent, otherwise
store the relative offset in the cache and return
`module base + offset`.  `exports` gives the export table of each
library as a partial map from symbol names to relative offsets. -/
def resolveAddress (exports : String → String → Option Nat)
    (st : ResolverState) (m : RemoteModule) (sym : String) :
    Except Err (Nat × ResolverState) :=
  match lookupCache st.cache (m.libraryPath, sym) with
  | some off => .ok (m.base + off, st)
  | none =>
      match exports m.libraryPath sym with
      | none => .error (.SymbolNotFoundError sym)
      | some off =>
          .ok (m.base + off,
               { cache := ((m.libraryPath, sym), off) :: st.cache,
                 parseCount := st.parseCount + 1 })

/-- Whether a `PyObject` is a string (`isinstance(code, str)`). -/
def PyObject.isStr : PyObject → Bool
  | .str _ => true
  | _ => false

/-- A process-info record for concrete instantiations. -/
def pinfoA : ProcessInfo :=
  { pid := 7, handle := 40, executable := "C:\\target.exe" }

/-- A session in the state reached by a successful construction: process
open, DLL injected, cache open. -/
def sReady : RemotePython :=
  { process := pinfoA, dll_path := "python311.dll", proc_cache := true,
    remote_dll := some 4096, debug := false }

/-- An environment in which every primitive succeeds. -/
def envNop : Env where
  openProcess := fun _ => .ok 40
  getModuleFileNameEx := fun _ => .ok "C:\\target.exe"
  getDefaultPythonDll := .ok "python311.dll"
  initCache := fun _ => .ok ()
  injectDll := fun _ => .ok 4096
  pythonInjected := true
  initPython := .ok ()
  pythonInitialized := true
  getProcAddress := fun _ => .ok 4196
  executeRemote := fun _ _ => .ok 0
  unloadDll := .ok ()
  closeProcess := .ok ()
  closeCache := .ok ()

/-- The trace of `set_python_path` is a single `PySys_SetPath` remote
call carrying the `;`-join of the `str(Path(p))` conversions of the
given paths, whatever the outcome of the remote call. -/
theorem setpath_trace (env : Env) (s : RemotePython) (paths : List String) :
    (RemotePython.set_python_path env s paths).2 =
      [.ExecuteRemote "PySys_SetPath"
        (some (String.intercalate ";" (paths.map windowsPathStr)))] := by
  unfold RemotePython.set_python_path
  cases h : env.executeRemote "PySys_SetPath"
      (some (String.intercalate ";" (paths.map windowsPathStr))) <;> simp [h]

/-- C9: for every session and every argument, invoking the session as a
function (`__call__`) returns exactly what `run` returns — same value,
same raised error, same effects (the body of `__call__` is
`return self.run(code)`). -/
theorem call_equals_run (env : Env) (s : RemotePython) (code : PyObject) :
    RemotePython.callSession env s code = RemotePython.run env s code := rfl

/-- C10: for every argument that is not a string, `run` raises the
builtin `TypeError` with message `Code must be a string` before anything
else happens: the instance is unchanged and the trace records zero
injection or remote-execution attempts. -/
theorem run_nonstring_type_error_no_remote (env : Env) (s : RemotePython)
    (v : PyObject) (hv : PyObject.isStr v = false) :
    RemotePython.run env s v =
      (.error (.TypeError "Code must be a string"), s, []) ∧
    remoteAttempts (RemotePython.run env s v).2.2 = 0 := by
  cases v with
  | str c => simp [PyObject.isStr] at hv
  | int n => exact ⟨rfl, rfl⟩
  | noneObj => exact ⟨rfl, rfl⟩

/-- Witness for C10 at the concrete non-string argument `5`. -/
theorem run_nonstring_type_error_no_remote_witness :
    PyObject.isStr (PyObject.int 5) = false ∧
    (RemotePython.run envNop sReady (PyObject.int 5) =
        (.error (.TypeError "Code must be a string"), sReady, []) ∧
      remoteAttempts (RemotePython.run envNop sReady (PyObject.int 5)).2.2 = 0) :=
  ⟨rfl, run_nonstring_type_error_no_remote envNop sReady (PyObject.int 5) rfl⟩

/-- C7 (amended statement is the claim itself; the resolver is modelled
from the spec because `_get_proc_address` has no body in src): resolving
a symbol that is initially uncached and present in the export table
twice returns the identical `base + offset` address both times, parses
the export table exactly once (the counter reads 1 after two
resolutions), and serves the second resolution from the cache with the
state unchanged. -/
theorem resolveAddress_cached_round_trip
    (exports : String → String → Option Nat) (st : ResolverState)
    (m : RemoteModule) (sym : String) (off : Nat)
    (hmiss : lookupCache st.cache (m.libraryPath, sym) = none)
    (hexp : exports m.libraryPath sym = some off)
    (hcount : st.parseCount = 0) :
    ∃ st1 : ResolverState,
      resolveAddress exports st m sym = .ok (m.base + off, st1) ∧
      resolveAddress exports st1 m sym = .ok (m.base + off, st1) ∧
      st1.parseCount = 1 := by
  refine ⟨{ cache := ((m.libraryPath, sym), off) :: st.cache,
            parseCount := st.parseCount + 1 }, ?_, ?_, ?_⟩
  · unfold resolveAddress
    rw [hmiss, hexp]
  · simp [resolveAddress, lookupCache]
  · simp [hcount]

/-- An export table holding a single symbol, for the C7 witness. -/
def exportsA : String → String → Option Nat := fun lib symn =>
  if lib = "python311.dll" && symn = "Py_Finalize" then some 100 else none

/-- Witness for C7: a fresh resolver state against a module at base 4096
whose library exports `Py_Finalize` at offset 100. -/
theorem resolveAddress_cached_round_trip_witness :
    lookupCache (ResolverState.mk [] 0).cache ("python311.dll", "Py_Finalize") = none ∧
    exportsA "python311.dll" "Py_Finalize" = some 100 ∧
    (ResolverState.mk [] 0).parseCount = 0 ∧
    ∃ st1 : ResolverState,
      resolveAddress exportsA (ResolverState.mk [] 0)
          (RemoteModule.mk 4096 "python311.dll") "Py_Finalize" =
        .ok (4096 + 100, st1) ∧
      resolveAddress exportsA st1
          (RemoteModule.mk 4096 "python311.dll") "Py_Finalize" =
        .ok (4096 + 100, st1) ∧
      st1.parseCount = 1 :=
  ⟨rfl, rfl, rfl,
    resolveAddress_cached_round_trip exportsA (ResolverState.mk [] 0)
      (RemoteModule.mk 4096 "python311.dll") "Py_Finalize" 100 rfl rfl rfl⟩

/-- C6 (amended): `set_python_path` converts each path through
`str(Path(p))`, joins the conversions with a literal `;`, and forwards
exactly that joined string to the `PySys_SetPath` export; for the cited
already-normalised example the forwarded string is exactly
`C:\a;C:\b`. -/
theorem setpath_forwards_normalized_join (env : Env) (s : RemotePython)
    (paths : List String) :
    (RemotePython.set_python_path env s paths).2 =
      [.ExecuteRemote "PySys_SetPath"
        (some (String.intercalate ";" (paths.map windowsPathStr)))] ∧
    (RemotePython.set_python_path env s ["C:\\a", "C:\\b"]).2 =
      [.ExecuteRemote "PySys_SetPath" (some "C:\\a;C:\\b")] := by
  refine ⟨setpath_trace env s paths, ?_⟩
  exact setpath_trace env s ["C:\\a", "C:\\b"]

/-- C6 counterexample: the code does not forward the join of the paths
as given.  For the input `["C:/a"]` the forwarded string is the
`Path`-normalised `C:\a`, which differs from the join `C:/a` of the
sequence itself. -/
theorem setpath_forward_slash_cex :
    (RemotePython.set_python_path envNop sReady ["C:/a"]).2 =
      [.ExecuteRemote "PySys_SetPath" (some "C:\\a")] ∧
    "C:\\a" ≠ String.intercalate ";" ["C:/a"] := by
  exact ⟨rfl, by decide⟩

/-- When the `_remote_dll` attribute is absent and both close helpers
succeed, `cleanup` only closes the process handle and the cache. -/
theorem cleanup_no_dll (env : Env) (s : RemotePython)
    (hdll : s.remote_dll = none)
    (hc : env.closeProcess = .ok ()) (hcc : env.closeCache = .ok ()) :
    RemotePython.cleanup env s =
      (.ok s, [.CloseProcessHandle, .CloseCacheStore]) := by
  unfold RemotePython.cleanup
  rw [hdll, hc, hcc]
  rfl

/-- Whenever both close helpers succeed, `cleanup` returns normally with
the instance unchanged, whatever the outcome of remote finalisation and
unload. -/
theorem cleanup_ok_of_closes (env : Env) (s : RemotePython)
    (hc : env.closeProcess = .ok ()) (hcc : env.closeCache = .ok ()) :
    ∃ t, RemotePython.cleanup env s = (.ok s, t) := by
  unfold RemotePython.cleanup
  rw [hc, hcc]
  exact ⟨_, rfl⟩

/-- Failure path of `_inject_and_initialize` when the DLL injection
itself raises: the handler runs `cleanup` on an instance that does not
yet carry `_remote_dll` and re-raises the wrapped base error. -/
theorem injectAndInit_inject_error (env : Env) (s : RemotePython)
    (e : String)
    (hinj : env.injectDll s.dll_path = .error e)
    (hdll : s.remote_dll = none)
    (hc : env.closeProcess = .ok ()) (hcc : env.closeCache = .ok ()) :
    injectAndInit env s =
      (.error (.RemotePythonError ("Injection/initialization failed: " ++ e)),
       [.InjectDll s.dll_path, .CloseProcessHandle, .CloseCacheStore]) := by
  unfold injectAndInit exceptHandler
  rw [hinj, cleanup_no_dll env s hdll hc hcc]

/-- Environment in which the remote `Py_Finalize` call fails but the
close helpers succeed. -/
def envFinalizeFails : Env :=
  { envNop with
    executeRemote := fun p _ =>
      if p = "Py_Finalize" then .error "finalize boom" else .ok 0 }

/-- Environment in which the remote `Py_Finalize` call fails and
`_close_process` also fails. -/
def envCloseFails : Env :=
  { envFinalizeFails with closeProcess := .error "close boom" }

/-- C2 (amended): failures of the remote finalisation and DLL unload
steps are swallowed by `cleanup`, which still returns normally with the
instance unchanged and goes on to close the handle and the cache; the
no-throw guarantee holds only as far as `_close_process` and
`_close_cache` succeed, because those two calls are not guarded. -/
theorem cleanup_swallows_finalize_failure (env : Env) (s : RemotePython)
    (b : Nat) (e : String)
    (hdll : s.remote_dll = some b)
    (hf : env.executeRemote "Py_Finalize" none = .error e)
    (hc : env.closeProcess = .ok ()) (hcc : env.closeCache = .ok ()) :
    RemotePython.cleanup env s =
      (.ok s, [.ExecuteRemote "Py_Finalize" none, .CloseProcessHandle,
               .CloseCacheStore]) := by
  unfold RemotePython.cleanup
  rw [hdll, hf, hc, hcc]
  rfl

/-- Witness for C2 at a concrete session and environment: the finalize
failure is swallowed and `cleanup` returns normally. -/
theorem cleanup_swallows_finalize_failure_witness :
    sReady.remote_dll = some 4096 ∧
    envFinalizeFails.executeRemote "Py_Finalize" none = .error "finalize boom" ∧
    envFinalizeFails.closeProcess = .ok () ∧
    envFinalizeFails.closeCache = .ok () ∧
    RemotePython.cleanup envFinalizeFails sReady =
      (.ok sReady, [.ExecuteRemote "Py_Finalize" none, .CloseProcessHandle,
                    .CloseCacheStore]) :=
  ⟨rfl, rfl, rfl, rfl,
    cleanup_swallows_finalize_failure envFinalizeFails sReady 4096
      "finalize boom" rfl rfl rfl rfl⟩

/-- C2 counterexample: a failure during the cleanup phase is not always
swallowed.  With `_close_process` raising, `cleanup` propagates that
exception to the caller (the close calls sit outside the `try` of
src/main.py lines 127-132). -/
theorem cleanup_close_failure_propagates_cex :
    RemotePython.cleanup envCloseFails sReady =
      (.error (.OSErrorKind "close boom"),
       [.ExecuteRemote "Py_Finalize" none, .CloseProcessHandle]) ∧
    kindOf (RemotePython.cleanup envCloseFails sReady).1 ≠ none :=
  ⟨rfl, by decide⟩

/-- C3 (amended): `cleanup` may be invoked any number of times and (when
the close helpers succeed) always returns normally with the attribute
state unchanged — but it is not idempotent in effects: since
`_remote_dll` is never deleted, every invocation repeats the same work,
so two invocations produce the effect trace of one, twice. -/
theorem cleanup_repeats_effects (env : Env) (s : RemotePython)
    (hc : env.closeProcess = .ok ()) (hcc : env.closeCache = .ok ()) :
    (RemotePython.cleanup env s).1 = .ok s ∧
    cleanupTwice env s =
      (.ok s, (RemotePython.cleanup env s).2 ++ (RemotePython.cleanup env s).2) := by
  obtain ⟨t, ht⟩ := cleanup_ok_of_closes env s hc hcc
  refine ⟨by rw [ht], ?_⟩
  simp [cleanupTwice, ht]

/-- Witness for C3 at a concrete session and all-succeeding
environment. -/
theorem cleanup_repeats_effects_witness :
    envNop.closeProcess = .ok () ∧
    envNop.closeCache = .ok () ∧
    ((RemotePython.cleanup envNop sReady).1 = .ok sReady ∧
      cleanupTwice envNop sReady =
        (.ok sReady,
         (RemotePython.cleanup envNop sReady).2 ++
           (RemotePython.cleanup envNop sReady).2)) :=
  ⟨rfl, rfl, cleanup_repeats_effects envNop sReady rfl rfl⟩

/-- C3 counterexample: two `cleanup` invocations are observably
different from one, and the second invocation performs further remote
execution — its share of the trace again contains the remote
`Py_Finalize` attempt, because the `_remote_dll` attribute survives the
first call. -/
theorem cleanup_not_idempotent_cex :
    (cleanupTwice envNop sReady).2 ≠ (RemotePython.cleanup envNop sReady).2 ∧
    Event.ExecuteRemote "Py_Finalize" none ∈
      (cleanupTwice envNop sReady).2.drop
        (RemotePython.cleanup envNop sReady).2.length := by
  decide

/-- Environment in which `cleanup` succeeds (finalize, unload and the
closes all work) but any later remote execution fails, as it would
against a closed handle. -/
def envExecFails : Env :=
  { envNop with
    executeRemote := fun p _ =>
      if p = "Py_Finalize" then .ok 0 else .error "handle invalid" }

/-- C4 (amended): `run` performs no lifecycle-state check at all.  After
`cleanup` it simply attempts the remote execution again and wraps the
resulting failure in the base `RemotePythonError`; no `InvalidStateError`
exists in the code and none is raised. -/
theorem run_after_cleanup_wraps_base_error (env : Env)
    (s s2 : RemotePython) (tr : List Event) (c e : String)
    (hclean : RemotePython.cleanup env s = (.ok s2, tr))
    (hexec : env.executeRemote "PyRun_SimpleString" (some c) = .error e) :
    (RemotePython.run env s2 (.str c)).1 =
      .error (.RemotePythonError ("Code execution failed: " ++ e)) ∧
    kindOf (RemotePython.run env s2 (.str c)).1 ≠ some ErrKind.invalidState := by
  simp only [RemotePython.run, hexec]
  simp [kindOf, Err.kind]

/-- Witness for C4: concrete post-cleanup session against an
environment whose remote calls fail once the handle is gone. -/
theorem run_after_cleanup_wraps_base_error_witness :
    RemotePython.cleanup envExecFails sReady =
      (.ok sReady, [.ExecuteRemote "Py_Finalize" none, .UnloadRemoteDll,
                    .CloseProcessHandle, .CloseCacheStore]) ∧
    envExecFails.executeRemote "PyRun_SimpleString" (some "pass") =
      .error "handle invalid" ∧
    ((RemotePython.run envExecFails sReady (.str "pass")).1 =
        .error (.RemotePythonError "Code execution failed: handle invalid") ∧
      kindOf (RemotePython.run envExecFails sReady (.str "pass")).1 ≠
        some ErrKind.invalidState) :=
  ⟨rfl, rfl,
    run_after_cleanup_wraps_base_error envExecFails sReady sReady
      [.ExecuteRemote "Py_Finalize" none, .UnloadRemoteDll,
       .CloseProcessHandle, .CloseCacheStore] "pass" "handle invalid" rfl rfl⟩

/-- C4 counterexample: after a successful `cleanup`, `run` fails with
the base `RemotePythonError`, not with `InvalidStateError`. -/
theorem run_after_cleanup_kind_cex :
    kindOf (RemotePython.cleanup envExecFails sReady).1 = none ∧
    kindOf (RemotePython.run envExecFails sReady (.str "x")).1 =
      some ErrKind.remotePython ∧
    kindOf (RemotePython.run envExecFails sReady (.str "x")).1 ≠
      some ErrKind.invalidState := by
  decide

/-- C5 (amended): when the underlying remote execution fails, `run`
raises the base `RemotePythonError` wrapping the underlying message
(not an `ExecutionError`, which does not exist in the code) and the
instance is returned unchanged, so the caller may retry or clean up. -/
theorem run_failure_wraps_base_error_state_unchanged (env : Env)
    (s : RemotePython) (c e : String)
    (hexec : env.executeRemote "PyRun_SimpleString" (some c) = .error e) :
    RemotePython.run env s (.str c) =
      (.error (.RemotePythonError ("Code execution failed: " ++ e)), s,
       [.ExecuteRemote "PyRun_SimpleString" (some c)]) := by
  simp only [RemotePython.run, hexec]

/-- Witness for C5 at a concrete Ready session and failing remote
execution. -/
theorem run_failure_wraps_base_error_state_unchanged_witness :
    envExecFails.executeRemote "PyRun_SimpleString" (some "1+1") =
      .error "handle invalid" ∧
    RemotePython.run envExecFails sReady (.str "1+1") =
      (.error (.RemotePythonError "Code execution failed: handle invalid"),
       sReady, [.ExecuteRemote "PyRun_SimpleString" (some "1+1")]) :=
  ⟨rfl,
    run_failure_wraps_base_error_state_unchanged envExecFails sReady
      "1+1" "handle invalid" rfl⟩

/-- C5 counterexample: the error raised by a failing `run` is of kind
`RemotePythonError`, not `ExecutionError`; the session fields are indeed
unchanged. -/
theorem run_failure_kind_cex :
    kindOf (RemotePython.run envExecFails sReady (.str "1/0")).1 =
      some ErrKind.remotePython ∧
    kindOf (RemotePython.run envExecFails sReady (.str "1/0")).1 ≠
      some ErrKind.execution ∧
    (RemotePython.run envExecFails sReady (.str "1/0")).2.1 = sReady := by
  decide

/-- Environment in which opening the target process fails. -/
def envOpenFails : Env :=
  { envNop with openProcess := fun _ => .error "No such process" }

/-- C8 (amended): when opening the process fails, construction raises a
`RemotePythonError` carrying the `Failed to initialize process` message
(`_initialize_process` wraps every open failure in the base error; no
`ProcessOpenError` kind exists in the code) and performs zero injection
or remote-execution attempts: the trace is the single failed open. -/
theorem construct_open_failure_no_injection (env : Env) (pid : Nat)
    (dllp shelf : Option String) (e : String)
    (h : env.openProcess pid = .error e) :
    RemotePython.construct env pid dllp shelf =
      (.error (.RemotePythonError ("Failed to initialize process: " ++ e)),
       [.OpenProcess pid]) ∧
    remoteAttempts (RemotePython.construct env pid dllp shelf).2 = 0 := by
  have h1 : initProcess env pid =
      (.error (.RemotePythonError ("Failed to initialize process: " ++ e)),
       [.OpenProcess pid]) := by
    unfold initProcess
    rw [h]
  constructor
  · unfold RemotePython.construct
    rw [h1]
  · unfold RemotePython.construct
    rw [h1]
    rfl

/-- Witness for C8 at a process id whose open is refused. -/
theorem construct_open_failure_no_injection_witness :
    envOpenFails.openProcess 9999 = .error "No such process" ∧
    (RemotePython.construct envOpenFails 9999 none none =
        (.error (.RemotePythonError "Failed to initialize process: No such process"),
         [.OpenProcess 9999]) ∧
      remoteAttempts (RemotePython.construct envOpenFails 9999 none none).2 = 0) :=
  ⟨rfl, construct_open_failure_no_injection envOpenFails 9999 none none
    "No such process" rfl⟩

/-- C8 counterexample: the error raised for an unopenable process is of
kind `RemotePythonError`, not `ProcessOpenError` (which the code never
constructs); the zero-injection-attempts half of the claim does hold. -/
theorem construct_open_failure_kind_cex :
    kindOf (RemotePython.construct envOpenFails 9999 none none).1 =
      some ErrKind.remotePython ∧
    kindOf (RemotePython.construct envOpenFails 9999 none none).1 ≠
      some ErrKind.processOpen ∧
    remoteAttempts (RemotePython.construct envOpenFails 9999 none none).2 = 0 := by
  decide

/-- Environment in which everything up to injection succeeds and the
DLL injection fails. -/
def envInjectFails : Env :=
  { envNop with injectDll := fun _ => .error "load failed" }

/-- Environment in which opening the address cache fails after the
process handle has been opened. -/
def envCacheFails : Env :=
  { envNop with initCache := fun _ => .error "cache boom" }

/-- C1 (amended): when construction fails inside
`_inject_and_initialize` (and the close helpers succeed), best-effort
cleanup runs — the trace ends with the handle close and cache close —
before a single aggregated error is raised, but that error is the base
`RemotePythonError`, not `InitializationError`; and a construction
failure between handle open and injection (such as a cache-open
failure) propagates with no cleanup at all. -/
theorem construct_inject_failure_cleans_up_then_raises_base_error
    (env : Env) (pid hdl : Nat) (exe dll e : String)
    (h1 : env.openProcess pid = .ok hdl)
    (h2 : env.getModuleFileNameEx hdl = .ok exe)
    (h3 : env.initCache none = .ok ())
    (h4 : env.injectDll dll = .error e)
    (h5 : env.closeProcess = .ok ())
    (h6 : env.closeCache = .ok ())
    (hne : dll ≠ "") :
    RemotePython.construct env pid (some dll) none =
      (.error (.RemotePythonError ("Injection/initialization failed: " ++ e)),
       [.OpenProcess pid, .QueryExecutablePath, .OpenCacheStore,
        .InjectDll dll, .CloseProcessHandle, .CloseCacheStore]) := by
  have hip : initProcess env pid =
      (.ok { pid := pid, handle := hdl, executable := exe },
       [.OpenProcess pid, .QueryExecutablePath]) := by
    simp only [initProcess, h1, h2]
  have hor : pyOr (some dll) env.getDefaultPythonDll = .ok dll := by
    simp [pyOr, hne]
  have hjj : injectAndInit env
      { process := { pid := pid, handle := hdl, executable := exe },
        dll_path := dll, proc_cache := true, remote_dll := none,
        debug := false } =
      (.error (.RemotePythonError ("Injection/initialization failed: " ++ e)),
       [.InjectDll dll, .CloseProcessHandle, .CloseCacheStore]) :=
    injectAndInit_inject_error env
      { process := { pid := pid, handle := hdl, executable := exe },
        dll_path := dll, proc_cache := true, remote_dll := none,
        debug := false } e h4 rfl h5 h6
  unfold RemotePython.construct
  simp only [hip, hor, h3, hjj]
  rfl

/-- Witness for C1: concrete construction whose injection step fails;
cleanup closes the handle and the cache before the aggregated base
error surfaces. -/
theorem construct_inject_failure_cleans_up_witness :
    envInjectFails.openProcess 7 = .ok 40 ∧
    envInjectFails.getModuleFileNameEx 40 = .ok "C:\\target.exe" ∧
    envInjectFails.initCache none = .ok () ∧
    envInjectFails.injectDll "python311.dll" = .error "load failed" ∧
    envInjectFails.closeProcess = .ok () ∧
    envInjectFails.closeCache = .ok () ∧
    "python311.dll" ≠ "" ∧
    RemotePython.construct envInjectFails 7 (some "python311.dll") none =
      (.error (.RemotePythonError "Injection/initialization failed: load failed"),
       [.OpenProcess 7, .QueryExecutablePath, .OpenCacheStore,
        .InjectDll "python311.dll", .CloseProcessHandle, .CloseCacheStore]) :=
  ⟨rfl, rfl, rfl, rfl, rfl, rfl, by decide,
    construct_inject_failure_cleans_up_then_raises_base_error envInjectFails
      7 40 "C:\\target.exe" "python311.dll" "load failed"
      rfl rfl rfl rfl rfl rfl (by decide)⟩

/-- C1 counterexample: the aggregated error raised when injection fails
is of kind `RemotePythonError`, not `InitializationError`; and a
cache-open failure after the handle is open raises with a trace that
contains no handle close at all, i.e. without any cleanup. -/
theorem construct_failure_error_kind_cex :
    kindOf (RemotePython.construct envInjectFails 7 (some "python311.dll") none).1 =
      some ErrKind.remotePython ∧
    kindOf (RemotePython.construct envInjectFails 7 (some "python311.dll") none).1 ≠
      some ErrKind.initialization ∧
    (RemotePython.construct envCacheFails 7 (some "python311.dll") none).2 =
      [.OpenProcess 7, .QueryExecutablePath, .OpenCacheStore] ∧
    Event.CloseProcessHandle ∉
      (RemotePython.construct envCacheFails 7 (some "python311.dll") none).2 := by
  decide
